import Mathlib

/-!
# Package `logging` of quic-go: the tracer interfaces

`src/logging/interface.go` declares type aliases, constants and the two
interfaces `Tracer` and `ConnectionTracer`.  The development has two layers.

* `Logging.Decl`: the declarations themselves, as data (method names,
  parameter lists, result lists), transcribed line by line from the file.
* `Logging.Call`, `Logging.ConnectionTracer`, `Logging.Tracer`: the meaning of
  the declarations, with one constructor (or field) per declared method and
  the argument types of the declaration.

The code that calls a tracer (the connection) and the code that implements
one live in other packages; where a property is about them, the discipline
the specification describes is written down as a monitor over call sequences.
-/

namespace Logging

/-! ## Declarations as data -/

/-- A Go type expression as it is written in a declaration. -/
inductive GoType where
  | named (name : String)
  | pointer (elem : GoType)
  | slice (elem : GoType)
  | array (len : Nat) (elem : GoType)
  deriving DecidableEq, Repr

/-- One parameter of a method; `name` is empty when the source gives none. -/
structure Param where
  name : String
  type : GoType
  deriving DecidableEq, Repr

/-- One method of an interface type: its name, parameters and results. -/
structure Method where
  name : String
  params : List Param
  results : List GoType
  deriving DecidableEq, Repr

/-- An interface type declaration. -/
structure Interface where
  name : String
  methods : List Method
  deriving DecidableEq, Repr

/-- One line of a typed constant block: `name type = value`. -/
structure ConstDecl where
  name : String
  type : String
  value : String
  deriving DecidableEq, Repr

/-- The names of the methods of an interface, in declaration order. -/
def Interface.methodNames (i : Interface) : List String :=
  i.methods.map Method.name

/-- Looks a method up by name. -/
def Interface.method? (i : Interface) (n : String) : Option Method :=
  i.methods.find? (fun m => m.name == n)

/-- The types of the parameters of a method, in order. -/
def Method.paramTypes (m : Method) : List GoType :=
  m.params.map Param.type

/-- Values of pointer, slice and interface types can be nil.  `ifaces` lists
the names that are declared as interface types. -/
def GoType.nilable (ifaces : List String) : GoType → Bool
  | .named n => ifaces.contains n
  | .pointer _ => true
  | .slice _ => true
  | .array _ _ => false

namespace Decl

/-- Lines 14-44: the type aliases `name = package.Name`. -/
def typeAliases : List (String × String) :=
  [ ("ByteCount", "protocol.ByteCount"),
    ("ConnectionID", "protocol.ConnectionID"),
    ("EncryptionLevel", "protocol.EncryptionLevel"),
    ("KeyPhase", "protocol.KeyPhase"),
    ("PacketNumber", "protocol.PacketNumber"),
    ("Perspective", "protocol.Perspective"),
    ("StreamID", "protocol.StreamID"),
    ("StreamNum", "protocol.StreamNum"),
    ("StreamType", "protocol.StreamType"),
    ("VersionNumber", "protocol.VersionNumber"),
    ("Header", "wire.Header"),
    ("ExtendedHeader", "wire.ExtendedHeader"),
    ("TransportParameters", "wire.TransportParameters"),
    ("RTTStats", "congestion.RTTStats") ]

/-- Lines 53-62: the constant block of type `EncryptionLevel`. -/
def encryptionLevelConsts : List ConstDecl :=
  [ ⟨"EncryptionInitial", "EncryptionLevel", "protocol.EncryptionInitial"⟩,
    ⟨"EncryptionHandshake", "EncryptionLevel", "protocol.EncryptionHandshake"⟩,
    ⟨"Encryption1RTT", "EncryptionLevel", "protocol.Encryption1RTT"⟩,
    ⟨"Encryption0RTT", "EncryptionLevel", "protocol.Encryption0RTT"⟩ ]

/-- Lines 72-75: `type Tracer interface`. -/
def Tracer : Interface :=
  { name := "Tracer"
    methods :=
      [ ⟨"TracerForServer", [⟨"odcid", .named "ConnectionID"⟩], [.named "ConnectionTracer"]⟩,
        ⟨"TracerForClient", [⟨"odcid", .named "ConnectionID"⟩], [.named "ConnectionTracer"]⟩ ] }

/-- Lines 78-101: `type ConnectionTracer interface`. -/
def ConnectionTracer : Interface :=
  { name := "ConnectionTracer"
    methods :=
      [ ⟨"StartedConnection",
          [ ⟨"local", .named "net.Addr"⟩, ⟨"remote", .named "net.Addr"⟩,
            ⟨"version", .named "VersionNumber"⟩,
            ⟨"srcConnID", .named "ConnectionID"⟩, ⟨"destConnID", .named "ConnectionID"⟩ ], []⟩,
        ⟨"ClosedConnection", [⟨"", .named "CloseReason"⟩], []⟩,
        ⟨"SentTransportParameters", [⟨"", .pointer (.named "TransportParameters")⟩], []⟩,
        ⟨"ReceivedTransportParameters", [⟨"", .pointer (.named "TransportParameters")⟩], []⟩,
        ⟨"SentPacket",
          [ ⟨"hdr", .pointer (.named "ExtendedHeader")⟩, ⟨"packetSize", .named "ByteCount"⟩,
            ⟨"ack", .pointer (.named "AckFrame")⟩, ⟨"frames", .slice (.named "Frame")⟩ ], []⟩,
        ⟨"ReceivedVersionNegotiationPacket", [⟨"", .pointer (.named "Header")⟩], []⟩,
        ⟨"ReceivedRetry", [⟨"", .pointer (.named "Header")⟩], []⟩,
        ⟨"ReceivedPacket",
          [ ⟨"hdr", .pointer (.named "ExtendedHeader")⟩, ⟨"packetSize", .named "ByteCount"⟩,
            ⟨"frames", .slice (.named "Frame")⟩ ], []⟩,
        ⟨"ReceivedStatelessReset", [⟨"token", .pointer (.array 16 (.named "byte"))⟩], []⟩,
        ⟨"BufferedPacket", [⟨"", .named "PacketType"⟩], []⟩,
        ⟨"DroppedPacket",
          [ ⟨"", .named "PacketType"⟩, ⟨"", .named "ByteCount"⟩,
            ⟨"", .named "PacketDropReason"⟩ ], []⟩,
        ⟨"UpdatedMetrics",
          [ ⟨"rttStats", .pointer (.named "RTTStats")⟩, ⟨"cwnd", .named "ByteCount"⟩,
            ⟨"bytesInFLight", .named "ByteCount"⟩, ⟨"packetsInFlight", .named "int"⟩ ], []⟩,
        ⟨"LostPacket",
          [ ⟨"", .named "EncryptionLevel"⟩, ⟨"", .named "PacketNumber"⟩,
            ⟨"", .named "PacketLossReason"⟩ ], []⟩,
        ⟨"UpdatedPTOCount", [⟨"value", .named "uint32"⟩], []⟩,
        ⟨"UpdatedKeyFromTLS", [⟨"", .named "EncryptionLevel"⟩, ⟨"", .named "Perspective"⟩], []⟩,
        ⟨"UpdatedKey", [⟨"generation", .named "KeyPhase"⟩, ⟨"remote", .named "bool"⟩], []⟩,
        ⟨"DroppedEncryptionLevel", [⟨"", .named "EncryptionLevel"⟩], []⟩,
        ⟨"SetLossTimer",
          [ ⟨"", .named "TimerType"⟩, ⟨"", .named "EncryptionLevel"⟩,
            ⟨"", .named "time.Time"⟩ ], []⟩,
        ⟨"LossTimerExpired", [⟨"", .named "TimerType"⟩, ⟨"", .named "EncryptionLevel"⟩], []⟩,
        ⟨"LossTimerCanceled", [], []⟩,
        ⟨"Close", [], []⟩ ] }

/-- The names declared as interface types in the file. -/
def interfaceNames : List String :=
  [Tracer.name, ConnectionTracer.name]

end Decl

end Logging

namespace Logging

/-! ## Types the file refers to -/

/-- Modelled from the spec: `protocol.EncryptionLevel` and the four constants
`protocol.EncryptionInitial`, `protocol.EncryptionHandshake`,
`protocol.Encryption0RTT`, `protocol.Encryption1RTT` are declared in package
`internal/protocol`, which is not among the sources.  The glossary describes an
encryption level as "one of {Initial, Handshake, 0-RTT, 1-RTT}, each with its
own packet-number space and key material". -/
inductive Protocol.EncryptionLevel where
  | EncryptionInitial
  | EncryptionHandshake
  | Encryption0RTT
  | Encryption1RTT
  deriving DecidableEq, Repr

/-- Line 20: `EncryptionLevel = protocol.EncryptionLevel`. -/
abbrev EncryptionLevel : Type := Protocol.EncryptionLevel

/-- Line 55: `EncryptionInitial EncryptionLevel = protocol.EncryptionInitial`. -/
def EncryptionInitial : EncryptionLevel := Protocol.EncryptionLevel.EncryptionInitial

/-- Line 57: `EncryptionHandshake EncryptionLevel = protocol.EncryptionHandshake`. -/
def EncryptionHandshake : EncryptionLevel := Protocol.EncryptionLevel.EncryptionHandshake

/-- Line 59: `Encryption1RTT EncryptionLevel = protocol.Encryption1RTT`. -/
def Encryption1RTT : EncryptionLevel := Protocol.EncryptionLevel.Encryption1RTT

/-- Line 61: `Encryption0RTT EncryptionLevel = protocol.Encryption0RTT`. -/
def Encryption0RTT : EncryptionLevel := Protocol.EncryptionLevel.Encryption0RTT

/-- The constants of type `EncryptionLevel` that the package exposes, in the
order of the constant block (lines 53-62). -/
def encryptionLevels : List EncryptionLevel :=
  [EncryptionInitial, EncryptionHandshake, Encryption1RTT, Encryption0RTT]

/-- The types that `interface.go` uses and that are declared elsewhere: `net.Addr`
and `time.Time` from the standard library, the aliased types of
`internal/protocol`, `internal/wire` and `internal/congestion` (lines 14-44), and
the types of package `logging` that other files of the package declare.  They
are parameters of the development; `TimerType` comes with a decidable equality,
as every Go type whose values can be compared with `==` does. -/
structure Imports where
  Addr : Type
  Time : Type
  ByteCount : Type
  ConnectionID : Type
  KeyPhase : Type
  PacketNumber : Type
  Perspective : Type
  VersionNumber : Type
  Header : Type
  ExtendedHeader : Type
  TransportParameters : Type
  RTTStats : Type
  CloseReason : Type
  AckFrame : Type
  Frame : Type
  PacketType : Type
  PacketDropReason : Type
  PacketLossReason : Type
  TimerType : Type
  decEqTimerType : DecidableEq TimerType

instance (I : Imports) : DecidableEq I.TimerType := I.decEqTimerType

/-! ## Calls -/

/-- One call of a method of `ConnectionTracer` (lines 78-101) with its arguments.
There is one constructor per method, named after it, and its fields are the
parameters of the method in order.  A pointer argument is `none` for nil and
otherwise the value it points to when the call is made; a slice argument is the
list of its elements; `uint32` is `Fin (2^32)`, `int` is `Int`, `bool` is `Bool`,
`[16]byte` is a list of 16 bytes. -/
inductive Call (I : Imports) where
  | StartedConnection (localAddr remoteAddr : I.Addr) (version : I.VersionNumber)
      (srcConnID destConnID : I.ConnectionID)
  | ClosedConnection (reason : I.CloseReason)
  | SentTransportParameters (tp : Option I.TransportParameters)
  | ReceivedTransportParameters (tp : Option I.TransportParameters)
  | SentPacket (hdr : Option I.ExtendedHeader) (packetSize : I.ByteCount)
      (ack : Option I.AckFrame) (frames : List I.Frame)
  | ReceivedVersionNegotiationPacket (hdr : Option I.Header)
  | ReceivedRetry (hdr : Option I.Header)
  | ReceivedPacket (hdr : Option I.ExtendedHeader) (packetSize : I.ByteCount)
      (frames : List I.Frame)
  | ReceivedStatelessReset (token : Option { bs : List (Fin 256) // bs.length = 16 })
  | BufferedPacket (pt : I.PacketType)
  | DroppedPacket (pt : I.PacketType) (size : I.ByteCount) (reason : I.PacketDropReason)
  | UpdatedMetrics (rttStats : Option I.RTTStats) (cwnd bytesInFLight : I.ByteCount)
      (packetsInFlight : Int)
  | LostPacket (level : EncryptionLevel) (pn : I.PacketNumber) (reason : I.PacketLossReason)
  | UpdatedPTOCount (value : Fin 4294967296)
  | UpdatedKeyFromTLS (level : EncryptionLevel) (perspective : I.Perspective)
  | UpdatedKey (generation : I.KeyPhase) (remote : Bool)
  | DroppedEncryptionLevel (level : EncryptionLevel)
  | SetLossTimer (timerType : I.TimerType) (level : EncryptionLevel) (deadline : I.Time)
  | LossTimerExpired (timerType : I.TimerType) (level : EncryptionLevel)
  | LossTimerCanceled
  | Close

namespace Call

variable {I : Imports}

/-- The name of the method a call invokes. -/
def method : Call I → String
  | StartedConnection .. => "StartedConnection"
  | ClosedConnection .. => "ClosedConnection"
  | SentTransportParameters .. => "SentTransportParameters"
  | ReceivedTransportParameters .. => "ReceivedTransportParameters"
  | SentPacket .. => "SentPacket"
  | ReceivedVersionNegotiationPacket .. => "ReceivedVersionNegotiationPacket"
  | ReceivedRetry .. => "ReceivedRetry"
  | ReceivedPacket .. => "ReceivedPacket"
  | ReceivedStatelessReset .. => "ReceivedStatelessReset"
  | BufferedPacket .. => "BufferedPacket"
  | DroppedPacket .. => "DroppedPacket"
  | UpdatedMetrics .. => "UpdatedMetrics"
  | LostPacket .. => "LostPacket"
  | UpdatedPTOCount .. => "UpdatedPTOCount"
  | UpdatedKeyFromTLS .. => "UpdatedKeyFromTLS"
  | UpdatedKey .. => "UpdatedKey"
  | DroppedEncryptionLevel .. => "DroppedEncryptionLevel"
  | SetLossTimer .. => "SetLossTimer"
  | LossTimerExpired .. => "LossTimerExpired"
  | LossTimerCanceled => "LossTimerCanceled"
  | Close => "Close"

/-- The number of arguments a call carries. -/
def arity : Call I → Nat
  | StartedConnection .. => 5
  | ClosedConnection .. => 1
  | SentTransportParameters .. => 1
  | ReceivedTransportParameters .. => 1
  | SentPacket .. => 4
  | ReceivedVersionNegotiationPacket .. => 1
  | ReceivedRetry .. => 1
  | ReceivedPacket .. => 3
  | ReceivedStatelessReset .. => 1
  | BufferedPacket .. => 1
  | DroppedPacket .. => 3
  | UpdatedMetrics .. => 4
  | LostPacket .. => 3
  | UpdatedPTOCount .. => 1
  | UpdatedKeyFromTLS .. => 2
  | UpdatedKey .. => 2
  | DroppedEncryptionLevel .. => 1
  | SetLossTimer .. => 3
  | LossTimerExpired .. => 2
  | LossTimerCanceled => 0
  | Close => 0

/-- Is the call `StartedConnection`? -/
def isStartedConnection : Call I → Bool
  | StartedConnection .. => true
  | _ => false

/-- Is the call `ClosedConnection`? -/
def isClosedConnection : Call I → Bool
  | ClosedConnection .. => true
  | _ => false

/-- Is the call `Close`? -/
def isClose : Call I → Bool
  | Close => true
  | _ => false

/-- The `(TimerType, EncryptionLevel)` arguments of a call of one of the three
timer methods (lines 96-98): `SetLossTimer` and `LossTimerExpired` have both,
`LossTimerCanceled` has no parameter. -/
def timerKey : Call I → Option (I.TimerType × EncryptionLevel)
  | SetLossTimer t l _ => some (t, l)
  | LossTimerExpired t l => some (t, l)
  | _ => none

end Call

/-! ## Implementations of the interfaces -/

/-- A non-nil value of interface type `ConnectionTracer` (lines 78-101): an
implementation with its own state.  No method has a result, so all a call does
for its caller is to move the implementation to a next state. -/
structure ConnectionTracer (I : Imports) where
  State : Type
  state : State
  handle : State → Call I → State

/-- A non-nil value of interface type `Tracer` (lines 72-75).  Each method takes
the receiver and `odcid ConnectionID` and has the single result
`ConnectionTracer`; a value of an interface type is nil (`none`) or an
implementation. -/
structure Tracer (I : Imports) where
  State : Type
  state : State
  TracerForServer : State → I.ConnectionID → State × Option (ConnectionTracer I)
  TracerForClient : State → I.ConnectionID → State × Option (ConnectionTracer I)

/-- A `Tracer` both of whose methods return the nil `ConnectionTracer`. -/
def nilTracer (I : Imports) : Tracer I :=
  { State := Unit
    state := ()
    TracerForServer := fun s _ => (s, none)
    TracerForClient := fun s _ => (s, none) }

/-- A `ConnectionTracer` that ignores every call. -/
def noopConnectionTracer (I : Imports) : ConnectionTracer I :=
  { State := Unit
    state := ()
    handle := fun s _ => s }

/-- A `Tracer` both of whose methods return a tracer that ignores every call. -/
def noopTracer (I : Imports) : Tracer I :=
  { State := Unit
    state := ()
    TracerForServer := fun s _ => (s, some (noopConnectionTracer I))
    TracerForClient := fun s _ => (s, some (noopConnectionTracer I)) }

/-! ## `SentPacket` and what it shares with its caller

Line 83: `SentPacket(hdr *ExtendedHeader, packetSize ByteCount, ack *AckFrame,
frames []Frame)`.  `hdr` is a pointer and `frames` is a slice: the header object
and the frame slots they refer to are the caller's own, and the method can store
into them.  The pointer and the slice themselves are passed by value. -/

/-- The five families of event kinds. -/
inductive Family where
  | lifecycle
  | packet
  | congestion
  | key
  | timer
  deriving DecidableEq, Repr

/-- The event kinds, in the words of the specification: "Lifecycle: connection
started, connection closed, encryption level dropped.  Packet I/O: packet sent /
received, version-negotiation packet received, retry packet received,
stateless-reset received, packet buffered, packet dropped.  Congestion/loss:
metrics updated, packet lost, probe-timeout count updated.  Key management: key
updated via the handshake layer, key updated via 1-RTT key rotation, transport
parameters sent/received.  Timer: loss-detection timer armed, timer expired,
timer canceled." -/
inductive EventKind where
  | connectionStarted
  | connectionClosed
  | encryptionLevelDropped
  | packetSent
  | packetReceived
  | versionNegotiationReceived
  | retryReceived
  | statelessResetReceived
  | packetBuffered
  | packetDropped
  | metricsUpdated
  | packetLost
  | ptoCountUpdated
  | keyUpdatedFromHandshake
  | keyUpdatedByRotation
  | transportParametersSent
  | transportParametersReceived
  | timerArmed
  | timerExpired
  | timerCanceled
  deriving DecidableEq, Repr

namespace EventKind

/-- Every event kind, family by family. -/
def all : List EventKind :=
  [ connectionStarted, connectionClosed, encryptionLevelDropped,
    packetSent, packetReceived, versionNegotiationReceived, retryReceived,
    statelessResetReceived, packetBuffered, packetDropped,
    metricsUpdated, packetLost, ptoCountUpdated,
    keyUpdatedFromHandshake, keyUpdatedByRotation, transportParametersSent,
    transportParametersReceived,
    timerArmed, timerExpired, timerCanceled ]

/-- The family of an event kind. -/
def family : EventKind → Family
  | connectionStarted | connectionClosed | encryptionLevelDropped => .lifecycle
  | packetSent | packetReceived | versionNegotiationReceived | retryReceived
  | statelessResetReceived | packetBuffered | packetDropped => .packet
  | metricsUpdated | packetLost | ptoCountUpdated => .congestion
  | keyUpdatedFromHandshake | keyUpdatedByRotation | transportParametersSent
  | transportParametersReceived => .key
  | timerArmed | timerExpired | timerCanceled => .timer

/-- The method of `ConnectionTracer` that reports an event kind. -/
def method : EventKind → String
  | connectionStarted => "StartedConnection"
  | connectionClosed => "ClosedConnection"
  | encryptionLevelDropped => "DroppedEncryptionLevel"
  | packetSent => "SentPacket"
  | packetReceived => "ReceivedPacket"
  | versionNegotiationReceived => "ReceivedVersionNegotiationPacket"
  | retryReceived => "ReceivedRetry"
  | statelessResetReceived => "ReceivedStatelessReset"
  | packetBuffered => "BufferedPacket"
  | packetDropped => "DroppedPacket"
  | metricsUpdated => "UpdatedMetrics"
  | packetLost => "LostPacket"
  | ptoCountUpdated => "UpdatedPTOCount"
  | keyUpdatedFromHandshake => "UpdatedKeyFromTLS"
  | keyUpdatedByRotation => "UpdatedKey"
  | transportParametersSent => "SentTransportParameters"
  | transportParametersReceived => "ReceivedTransportParameters"
  | timerArmed => "SetLossTimer"
  | timerExpired => "LossTimerExpired"
  | timerCanceled => "LossTimerCanceled"

/-- The methods of one family, in the order of `all`. -/
def methodsOf (f : Family) : List String :=
  (all.filter (fun k => k.family == f)).map method

end EventKind

/-- The event kind a call reports; `Close` reports none. -/
def Call.kind {I : Imports} : Call I → Option EventKind
  | .StartedConnection .. => some .connectionStarted
  | .ClosedConnection .. => some .connectionClosed
  | .SentTransportParameters .. => some .transportParametersSent
  | .ReceivedTransportParameters .. => some .transportParametersReceived
  | .SentPacket .. => some .packetSent
  | .ReceivedVersionNegotiationPacket .. => some .versionNegotiationReceived
  | .ReceivedRetry .. => some .retryReceived
  | .ReceivedPacket .. => some .packetReceived
  | .ReceivedStatelessReset .. => some .statelessResetReceived
  | .BufferedPacket .. => some .packetBuffered
  | .DroppedPacket .. => some .packetDropped
  | .UpdatedMetrics .. => some .metricsUpdated
  | .LostPacket .. => some .packetLost
  | .UpdatedPTOCount .. => some .ptoCountUpdated
  | .UpdatedKeyFromTLS .. => some .keyUpdatedFromHandshake
  | .UpdatedKey .. => some .keyUpdatedByRotation
  | .DroppedEncryptionLevel .. => some .encryptionLevelDropped
  | .SetLossTimer .. => some .timerArmed
  | .LossTimerExpired .. => some .timerExpired
  | .LossTimerCanceled => some .timerCanceled
  | .Close => none

/-! ## The calling discipline of a connection

The connection that owns a tracer and calls its methods is not part of package
`logging`.  The orders in which it may call them are written down here as
monitors: a monitor reads the calls one by one and stops at the first call the
discipline forbids. -/

/-- Modelled from the spec: the connection is not among the sources; section 4.2
describes its calls as "a state machine with states {Unstarted, Active, Closed}". -/
inductive Phase where
  | Unstarted
  | Active
  | Closed
  deriving DecidableEq, Repr

/-- Modelled from the spec: the connection, which calls the methods of its
`ConnectionTracer`, is not among the sources.  Section 4.2 describes its calls
as a state machine over {Unstarted, Active, Closed}; `released` records that
`Close()`, "the final call", has been made. -/
structure Lifecycle where
  phase : Phase
  released : Bool
  deriving DecidableEq, Repr

namespace Lifecycle

variable {I : Imports}

/-- The state of a tracer that has received no call. -/
def init : Lifecycle := ⟨.Unstarted, false⟩

/-- Modelled from the spec: the transitions of section 4.2 for the connection,
which is not among the sources.  "Unstarted → Active: triggered by
`StartedConnection`.  Must be the first call."  "Active → Active: all packet,
congestion, key, and timer events are valid only in this state."  "Active →
Closed: triggered by `ClosedConnection(reason)`.  Exactly once per connection."
"Closed → Closed: `Close()` is the final call."  Every other call is a contract
violation and the monitor stops (`none`). -/
def step (s : Lifecycle) (c : Call I) : Option Lifecycle :=
  match s.phase, s.released, c with
  | .Unstarted, false, .StartedConnection .. => some ⟨.Active, false⟩
  | .Active, false, .StartedConnection .. => none
  | .Active, false, .ClosedConnection _ => some ⟨.Closed, false⟩
  | .Active, false, .Close => none
  | .Active, false, _ => some ⟨.Active, false⟩
  | .Closed, false, .Close => some ⟨.Closed, true⟩
  | _, _, _ => none

/-- Runs the monitor over a sequence of calls, first to last. -/
def run (s : Lifecycle) : List (Call I) → Option Lifecycle
  | [] => some s
  | c :: cs => (s.step c).bind (fun s' => run s' cs)

end Lifecycle

/-- The encryption level a packet or key call refers to: the level of the header
of `SentPacket` and `ReceivedPacket` (read off by `levelOfHeader`; a nil header
refers to none), and the `EncryptionLevel` argument of `LostPacket` and
`UpdatedKeyFromTLS`.  No other packet or key method has an `EncryptionLevel`
or a header with one among its parameters. -/
def Call.level? {I : Imports} (levelOfHeader : I.ExtendedHeader → EncryptionLevel) :
    Call I → Option EncryptionLevel
  | .SentPacket hdr _ _ _ => hdr.map levelOfHeader
  | .ReceivedPacket hdr _ _ => hdr.map levelOfHeader
  | .LostPacket l _ _ => some l
  | .UpdatedKeyFromTLS l _ => some l
  | _ => none

namespace Levels

variable {I : Imports}

/-- Modelled from the spec: the connection, which decides when to report a
packet, a key or a dropped level, is not among the sources, and neither is
`wire.ExtendedHeader`, whose encryption level is the parameter `levelOfHeader`
(the spec names a packet event by it: "`ReceivedPacket`(Initial, 1200 bytes,
frames=[CRYPTO])").  Section 3: "`DroppedEncryptionLevel` for a given level is
never followed by any packet or key event referencing that same encryption
level."  The state is the list of levels dropped so far; a packet or key call
for one of them stops the monitor. -/
def step (levelOfHeader : I.ExtendedHeader → EncryptionLevel)
    (dropped : List EncryptionLevel) (c : Call I) : Option (List EncryptionLevel) :=
  match c with
  | .DroppedEncryptionLevel l => some (l :: dropped)
  | c =>
    match c.level? levelOfHeader with
    | some l => if l ∈ dropped then none else some dropped
    | none => some dropped

/-- Runs the monitor over a sequence of calls, first to last. -/
def run (levelOfHeader : I.ExtendedHeader → EncryptionLevel)
    (dropped : List EncryptionLevel) : List (Call I) → Option (List EncryptionLevel)
  | [] => some dropped
  | c :: cs => (step levelOfHeader dropped c).bind (fun d => run levelOfHeader d cs)

end Levels

/-! ## The scenarios of the specification -/

namespace Scenario

/-- The close reason of scenario A. -/
inductive CloseReason where
  | HandshakeTimeout
  deriving DecidableEq, Repr

/-- The frames of scenario A. -/
inductive Frame where
  | CRYPTO
  | ACK
  deriving DecidableEq, Repr

/-- The timer type the specification names ("TimerType=PTO"). -/
inductive TimerType where
  | PTO
  deriving DecidableEq, Repr

/-- Concrete types for the scenarios of section 8: a header is given by its
encryption level, sizes and times are numbers (times in milliseconds after T0),
the types no scenario mentions are `Unit`. -/
def imports : Imports :=
  { Addr := Unit
    Time := Nat
    ByteCount := Nat
    ConnectionID := Unit
    KeyPhase := Unit
    PacketNumber := Nat
    Perspective := Unit
    VersionNumber := Unit
    Header := Unit
    ExtendedHeader := EncryptionLevel
    TransportParameters := Unit
    RTTStats := Unit
    CloseReason := CloseReason
    AckFrame := Unit
    Frame := Frame
    PacketType := Unit
    PacketDropReason := Unit
    PacketLossReason := Unit
    TimerType := TimerType
    decEqTimerType := inferInstance }

/-- Scenario A: "server tracer receives `StartedConnection` →
`ReceivedPacket`(Initial, 1200 bytes, frames=[CRYPTO]) → `SentPacket`(Initial,
1100 bytes, frames=[CRYPTO, ACK]) → `ClosedConnection`(reason=HandshakeTimeout)
→ `Close()`". -/
def scenarioA : List (Call imports) :=
  [ .StartedConnection () () () () (),
    .ReceivedPacket (some EncryptionInitial) (1200 : Nat) [Frame.CRYPTO],
    .SentPacket (some EncryptionInitial) (1100 : Nat) none [Frame.CRYPTO, Frame.ACK],
    .ClosedConnection CloseReason.HandshakeTimeout,
    .Close ]

/-- A handshake in which the Initial level is dropped after use. -/
def dropInitial : List (Call imports) :=
  [ .StartedConnection () () () () (),
    .ReceivedPacket (some EncryptionInitial) (1200 : Nat) [Frame.CRYPTO],
    .UpdatedKeyFromTLS EncryptionHandshake (),
    .DroppedEncryptionLevel EncryptionInitial,
    .SentPacket (some EncryptionHandshake) (1100 : Nat) none [Frame.CRYPTO] ]

end Scenario

end Logging

/-! ## Lemmas on the monitors and on `SentPacket` -/

namespace Logging

namespace Lifecycle

variable {I : Imports}

/-- A released tracer accepts no call. -/
theorem lifecycle_run_released (ph : Phase) (trace : List (Call I)) (s : Lifecycle)
    (h : run ⟨ph, true⟩ trace = some s) : trace = [] ∧ s = ⟨ph, true⟩ := by
  cases trace with
  | nil => simp [run] at h; exact ⟨rfl, h.symm⟩
  | cons c cs =>
    have : step (I := I) ⟨ph, true⟩ c = none := by
      cases ph <;> cases c <;> rfl
    simp [run, this] at h

/-- In the state Closed the only call accepted is one `Close`. -/
theorem lifecycle_run_closed (trace : List (Call I)) (s : Lifecycle)
    (h : run ⟨.Closed, false⟩ trace = some s) :
    (trace = [] ∧ s.released = false) ∨ (trace = [Call.Close] ∧ s.released = true) := by
  cases trace with
  | nil => simp [run] at h; left; exact ⟨rfl, by rw [← h]⟩
  | cons c cs =>
    right
    cases c <;> simp [run, step] at h
    obtain ⟨h1, h2⟩ := lifecycle_run_released _ _ _ h
    exact ⟨by rw [h1], by rw [h2]⟩

/-- From the state Active to the state Closed: calls other than
`StartedConnection`, `ClosedConnection` and `Close`, then `ClosedConnection`,
then at most the final `Close`. -/
theorem lifecycle_run_active (trace : List (Call I)) (s : Lifecycle)
    (h : run ⟨.Active, false⟩ trace = some s) (hs : s.phase = .Closed) :
    ∃ middle reason rest,
      trace = middle ++ Call.ClosedConnection reason :: rest ∧
      (∀ c ∈ middle, c.isStartedConnection = false ∧ c.isClosedConnection = false ∧
        c.isClose = false) ∧
      ((rest = [] ∧ s.released = false) ∨ (rest = [Call.Close] ∧ s.released = true)) := by
  induction trace with
  | nil => simp [run] at h; rw [← h] at hs; simp at hs
  | cons c cs ih =>
    cases c
    case StartedConnection => simp [run, step] at h
    case Close => simp [run, step] at h
    case ClosedConnection r =>
      simp [run, step] at h
      exact ⟨[], r, cs, rfl, by simp, lifecycle_run_closed _ _ h⟩
    all_goals
      simp [run, step] at h
      obtain ⟨middle, reason, rest, h1, h2, h3⟩ := ih h
      refine ⟨_ :: middle, reason, rest, by rw [h1]; rfl, ?_, h3⟩
      intro c hc
      rcases List.mem_cons.mp hc with rfl | hc
      · exact ⟨rfl, rfl, rfl⟩
      · exact h2 c hc

end Lifecycle

namespace Levels

variable {I : Imports}

/-- Running the level monitor over `xs ++ ys` is running it over `xs`, then `ys`. -/
theorem levels_run_append (f : I.ExtendedHeader → EncryptionLevel) (xs ys : List (Call I))
    (d : List EncryptionLevel) :
    run f d (xs ++ ys) = (run f d xs).bind (fun d' => run f d' ys) := by
  induction xs generalizing d with
  | nil => simp [run]
  | cons c cs ih =>
    simp only [List.cons_append, run]
    cases step f d c with
    | none => simp
    | some d1 => simp [ih]

/-- A dropped level stays dropped. -/
theorem levels_step_grows (f : I.ExtendedHeader → EncryptionLevel) (c : Call I)
    (d d1 : List EncryptionLevel) (h : step f d c = some d1) : ∀ l ∈ d, l ∈ d1 := by
  intro l hl
  cases c <;> simp [step, Call.level?] at h
  case DroppedEncryptionLevel l' => rw [← h]; exact List.mem_cons_of_mem _ hl
  case SentPacket hdr _ _ _ =>
    cases hdr <;> simp at h
    · rw [← h]; exact hl
    · rw [← h.2]; exact hl
  case ReceivedPacket hdr _ _ =>
    cases hdr <;> simp at h
    · rw [← h]; exact hl
    · rw [← h.2]; exact hl
  case LostPacket => rw [← h.2]; exact hl
  case UpdatedKeyFromTLS => rw [← h.2]; exact hl
  all_goals (rw [← h]; exact hl)

/-- An accepted call refers to no dropped level. -/
theorem levels_step_guard (f : I.ExtendedHeader → EncryptionLevel) (c : Call I)
    (d d1 : List EncryptionLevel) (h : step f d c = some d1) :
    ∀ l ∈ d, c.level? f ≠ some l := by
  intro l hl hc
  cases c <;> simp [Call.level?] at hc <;> simp [step, Call.level?, hc] at h
  all_goals
    first
    | exact h.1 hl
    | (obtain ⟨a, ha, hb⟩ := hc
       subst ha
       simp [hb] at h
       exact h.1 hl)

/-- No call of an accepted sequence refers to a level dropped before it. -/
theorem levels_run_guard (f : I.ExtendedHeader → EncryptionLevel) (cs : List (Call I))
    (d d' : List EncryptionLevel) (h : run f d cs = some d') :
    ∀ l ∈ d, ∀ c ∈ cs, c.level? f ≠ some l := by
  induction cs generalizing d with
  | nil => intro l _ c hc; simp at hc
  | cons c0 cs ih =>
    simp only [run] at h
    cases hs : step f d c0 with
    | none => simp [hs] at h
    | some d1 =>
      simp [hs] at h
      intro l hl c hc
      rcases List.mem_cons.mp hc with rfl | hc
      · exact levels_step_guard f c d d1 hs l hl
      · exact ih d1 h l (levels_step_grows f c0 d d1 hs l hl) c hc

end Levels

end Logging

/-! ## The claims -/

namespace Logging

/-- C1: no method of `ConnectionTracer` has an error return path.  The interface has
exactly the 21 listed methods, each of them has an empty result list, and every
call a tracer can receive is a call of one of these methods, so nothing, and in
particular no failure, is returned to the caller. -/
theorem connectionTracer_methods_return_nothing :
    Decl.ConnectionTracer.methodNames =
      ["StartedConnection", "ClosedConnection", "SentTransportParameters",
       "ReceivedTransportParameters", "SentPacket", "ReceivedVersionNegotiationPacket",
       "ReceivedRetry", "ReceivedPacket", "ReceivedStatelessReset", "BufferedPacket",
       "DroppedPacket", "UpdatedMetrics", "LostPacket", "UpdatedPTOCount",
       "UpdatedKeyFromTLS", "UpdatedKey", "DroppedEncryptionLevel", "SetLossTimer",
       "LossTimerExpired", "LossTimerCanceled", "Close"] ∧
    (∀ m ∈ Decl.ConnectionTracer.methods, m.results = []) ∧
    (∀ (I : Imports) (c : Call I),
      ∃ m ∈ Decl.ConnectionTracer.methods,
        m.name = c.method ∧ m.params.length = c.arity ∧ m.results = []) := by
  refine ⟨by decide, by decide, ?_⟩
  intro I c
  cases c <;> simp [Decl.ConnectionTracer, Call.method, Call.arity]

/-- C2 as stated fails: an implementation of `Tracer` may return the nil
`ConnectionTracer` from both methods, for every connection ID. -/
theorem tracer_may_return_nil :
    ¬ ∀ (T : Tracer Scenario.imports) (odcid : Scenario.imports.ConnectionID),
        (T.TracerForServer T.state odcid).2.isSome = true ∧
        (T.TracerForClient T.state odcid).2.isSome = true := by
  intro h
  have h' := (h (nilTracer Scenario.imports) ()).1
  simp [nilTracer] at h'

/-- C2, amended: `Tracer` has exactly the methods `TracerForServer` and
`TracerForClient`; each takes only `odcid ConnectionID` and has exactly one
result, of type `ConnectionTracer`, so there is no error result.
`ConnectionTracer` is an interface type, whose values include nil: that the
result is not nil is up to the implementation, and `noopTracer` is one that
returns a tracer for every connection ID. -/
theorem tracer_methods_signature :
    Decl.Tracer.methodNames = ["TracerForServer", "TracerForClient"] ∧
    (∀ m ∈ Decl.Tracer.methods,
      m.params = [⟨"odcid", .named "ConnectionID"⟩] ∧
      m.results = [.named "ConnectionTracer"] ∧
      GoType.named "error" ∉ m.results ∧
      ∀ r ∈ m.results, GoType.nilable Decl.interfaceNames r = true) ∧
    (∀ (I : Imports) (odcid : I.ConnectionID),
      ((noopTracer I).TracerForServer (noopTracer I).state odcid).2.isSome = true ∧
      ((noopTracer I).TracerForClient (noopTracer I).state odcid).2.isSome = true) := by
  refine ⟨by decide, by decide, ?_⟩
  intro I odcid
  exact ⟨rfl, rfl⟩

/-- C3: a sequence of calls the lifecycle monitor accepts up to the state Closed is
one `StartedConnection`, then calls that are none of `StartedConnection`,
`ClosedConnection`, `Close`, then one `ClosedConnection`, then nothing or, when
the tracer has been released, the single final `Close`.  So it contains exactly
one `StartedConnection`, before every other call, and exactly one
`ClosedConnection`, after every other call but the final `Close`. -/
theorem lifecycle_started_first_closed_last {I : Imports} (trace : List (Call I))
    (s : Lifecycle) (hrun : Lifecycle.run Lifecycle.init trace = some s)
    (hclosed : s.phase = .Closed) :
    ∃ first middle reason rest,
      trace = first :: (middle ++ Call.ClosedConnection reason :: rest) ∧
      first.isStartedConnection = true ∧
      (∀ c ∈ middle, c.isStartedConnection = false ∧ c.isClosedConnection = false ∧
        c.isClose = false) ∧
      ((rest = [] ∧ s.released = false) ∨ (rest = [Call.Close] ∧ s.released = true)) ∧
      trace.countP Call.isStartedConnection = 1 ∧
      trace.countP Call.isClosedConnection = 1 ∧
      trace.countP Call.isClose = (if s.released then 1 else 0) := by
  cases trace with
  | nil =>
    simp [Lifecycle.run, Lifecycle.init] at hrun
    rw [← hrun] at hclosed
    simp at hclosed
  | cons first cs =>
    cases first <;> simp [Lifecycle.run, Lifecycle.step, Lifecycle.init] at hrun
    obtain ⟨middle, reason, rest, h1, h2, h3⟩ :=
      Lifecycle.lifecycle_run_active cs s hrun hclosed
    refine ⟨Call.StartedConnection _ _ _ _ _, middle, reason, rest, by rw [h1], rfl, h2, h3, ?_⟩
    have m1 : middle.countP Call.isStartedConnection = 0 :=
      List.countP_eq_zero.mpr (fun c hc => by simp [(h2 c hc).1])
    have m2 : middle.countP Call.isClosedConnection = 0 :=
      List.countP_eq_zero.mpr (fun c hc => by simp [(h2 c hc).2.1])
    have m3 : middle.countP Call.isClose = 0 :=
      List.countP_eq_zero.mpr (fun c hc => by simp [(h2 c hc).2.2])
    rcases h3 with ⟨hr, hs⟩ | ⟨hr, hs⟩ <;>
      simp [h1, hr, hs, List.countP_cons, List.countP_append, m1, m2, m3,
        Call.isStartedConnection, Call.isClosedConnection, Call.isClose]

/-- C3 on scenario A of the specification: the monitor accepts its five calls and
ends released in the state Closed. -/
theorem lifecycle_started_first_closed_last_witness :
    Lifecycle.run Lifecycle.init Scenario.scenarioA = some ⟨.Closed, true⟩ ∧
    ∃ first middle reason rest,
      Scenario.scenarioA = first :: (middle ++ Call.ClosedConnection reason :: rest) ∧
      first.isStartedConnection = true ∧
      (∀ c ∈ middle, c.isStartedConnection = false ∧ c.isClosedConnection = false ∧
        c.isClose = false) ∧
      ((rest = [] ∧ (⟨.Closed, true⟩ : Lifecycle).released = false) ∨
        (rest = [Call.Close] ∧ (⟨.Closed, true⟩ : Lifecycle).released = true)) ∧
      Scenario.scenarioA.countP Call.isStartedConnection = 1 ∧
      Scenario.scenarioA.countP Call.isClosedConnection = 1 ∧
      Scenario.scenarioA.countP Call.isClose =
        (if (⟨.Closed, true⟩ : Lifecycle).released then 1 else 0) :=
  ⟨by decide,
    lifecycle_started_first_closed_last Scenario.scenarioA ⟨.Closed, true⟩ (by decide) rfl⟩

/-- C5: in a sequence of calls the level monitor accepts, no packet or key call
after `DroppedEncryptionLevel l` refers to the level `l`: it is no `SentPacket`
or `ReceivedPacket` whose header has level `l`, no `LostPacket` and no
`UpdatedKeyFromTLS` with argument `l`. -/
theorem no_packet_or_key_call_after_level_dropped {I : Imports}
    (levelOfHeader : I.ExtendedHeader → EncryptionLevel) (trace : List (Call I))
    (dropped : List EncryptionLevel)
    (hrun : Levels.run levelOfHeader [] trace = some dropped)
    (pre post : List (Call I)) (l : EncryptionLevel)
    (hsplit : trace = pre ++ Call.DroppedEncryptionLevel l :: post)
    (c : Call I) (hc : c ∈ post) :
    c.level? levelOfHeader ≠ some l ∧
    (∀ hdr size ack frames, c = Call.SentPacket (some hdr) size ack frames →
      levelOfHeader hdr ≠ l) ∧
    (∀ hdr size frames, c = Call.ReceivedPacket (some hdr) size frames →
      levelOfHeader hdr ≠ l) ∧
    (∀ pn reason, c ≠ Call.LostPacket l pn reason) ∧
    (∀ perspective, c ≠ Call.UpdatedKeyFromTLS l perspective) := by
  rw [hsplit, Levels.levels_run_append] at hrun
  cases h1 : Levels.run levelOfHeader [] pre with
  | none => simp [h1] at hrun
  | some d1 =>
    simp [h1, Levels.run, Levels.step] at hrun
    have key : c.level? levelOfHeader ≠ some l :=
      Levels.levels_run_guard levelOfHeader post (l :: d1) dropped hrun l
        (List.mem_cons_self _ _) c hc
    refine ⟨key, ?_, ?_, ?_, ?_⟩
    · intro hdr size ack frames he hl
      exact key (by rw [he]; simp [Call.level?, hl])
    · intro hdr size frames he hl
      exact key (by rw [he]; simp [Call.level?, hl])
    · intro pn reason he
      exact key (by rw [he]; rfl)
    · intro perspective he
      exact key (by rw [he]; rfl)

/-- C5 on a handshake that drops the Initial level after its last Initial packet
and then sends a Handshake packet. -/
theorem no_packet_or_key_call_after_level_dropped_witness :
    Levels.run (I := Scenario.imports) id [] Scenario.dropInitial = some [EncryptionInitial] ∧
    (Call.SentPacket (I := Scenario.imports) (some EncryptionHandshake) (1100 : Nat) none
        [Scenario.Frame.CRYPTO]).level? (I := Scenario.imports) id ≠ some EncryptionInitial :=
  ⟨by decide,
    (no_packet_or_key_call_after_level_dropped (I := Scenario.imports) id Scenario.dropInitial
      [EncryptionInitial] (by decide)
      [ .StartedConnection () () () () (),
        .ReceivedPacket (some EncryptionInitial) (1200 : Nat) [Scenario.Frame.CRYPTO],
        .UpdatedKeyFromTLS EncryptionHandshake () ]
      [ .SentPacket (some EncryptionHandshake) (1100 : Nat) none [Scenario.Frame.CRYPTO] ]
      EncryptionInitial rfl
      (.SentPacket (some EncryptionHandshake) (1100 : Nat) none [Scenario.Frame.CRYPTO])
      (List.mem_singleton.mpr rfl)).1⟩

/-- C6: the methods of `ConnectionTracer` are the event kinds of the five families
plus `Close`.  Each family has the methods the claim lists for it, the map from
event kinds to methods is injective, the method names of the interface are the
images of the 20 event kinds followed by `Close` (up to order, without
repetition), and every call reports the kind whose method it invokes. -/
theorem connectionTracer_methods_are_event_kinds :
    EventKind.methodsOf .lifecycle =
      ["StartedConnection", "ClosedConnection", "DroppedEncryptionLevel"] ∧
    EventKind.methodsOf .packet =
      ["SentPacket", "ReceivedPacket", "ReceivedVersionNegotiationPacket", "ReceivedRetry",
       "ReceivedStatelessReset", "BufferedPacket", "DroppedPacket"] ∧
    EventKind.methodsOf .congestion = ["UpdatedMetrics", "LostPacket", "UpdatedPTOCount"] ∧
    EventKind.methodsOf .key =
      ["UpdatedKeyFromTLS", "UpdatedKey", "SentTransportParameters",
       "ReceivedTransportParameters"] ∧
    EventKind.methodsOf .timer = ["SetLossTimer", "LossTimerExpired", "LossTimerCanceled"] ∧
    (∀ k : EventKind, k ∈ EventKind.all) ∧
    EventKind.all.length = 20 ∧
    Function.Injective EventKind.method ∧
    Decl.ConnectionTracer.methodNames.Nodup ∧
    Decl.ConnectionTracer.methodNames.length = 21 ∧
    List.Perm Decl.ConnectionTracer.methodNames (EventKind.all.map EventKind.method ++ ["Close"]) ∧
    (∀ (I : Imports) (c : Call I),
      (c.kind = none ∧ c.method = "Close") ∨ ∃ k, c.kind = some k ∧ k.method = c.method) := by
  refine ⟨by decide, by decide, by decide, by decide, by decide, ?_, by decide, ?_,
    by decide, by decide, by decide, ?_⟩
  · intro k
    cases k <;> decide
  · intro a b h
    cases a <;> cases b <;> first | rfl | (exact absurd h (by decide))
  · intro I c
    cases c <;> simp [Call.kind, Call.method, EventKind.method]

/-- C7: `SentPacket` and `ReceivedPacket` each carry a header (`hdr *ExtendedHeader`),
a size in bytes (`packetSize ByteCount`) and the list of frames (`frames []Frame`).
`SentPacket` has in addition `ack *AckFrame`, a pointer, which may be nil;
`ReceivedPacket` has no further parameter. -/
theorem packet_events_carry_header_size_frames :
    (Decl.ConnectionTracer.method? "SentPacket").map Method.params =
      some [⟨"hdr", .pointer (.named "ExtendedHeader")⟩, ⟨"packetSize", .named "ByteCount"⟩,
            ⟨"ack", .pointer (.named "AckFrame")⟩, ⟨"frames", .slice (.named "Frame")⟩] ∧
    (Decl.ConnectionTracer.method? "ReceivedPacket").map Method.params =
      some [⟨"hdr", .pointer (.named "ExtendedHeader")⟩, ⟨"packetSize", .named "ByteCount"⟩,
            ⟨"frames", .slice (.named "Frame")⟩] ∧
    GoType.nilable Decl.interfaceNames (.pointer (.named "AckFrame")) = true ∧
    (∀ (I : Imports) (hdr : Option I.ExtendedHeader) (size : I.ByteCount)
        (ack : Option I.AckFrame) (frames : List I.Frame),
      (Call.SentPacket hdr size ack frames).kind = some .packetSent ∧
      (Call.ReceivedPacket hdr size frames).kind = some .packetReceived) := by
  refine ⟨by decide, by decide, by decide, ?_⟩
  intro I hdr size ack frames
  exact ⟨rfl, rfl⟩

/-- C9: `EncryptionLevel` is the type `protocol.EncryptionLevel`, and the constant
block declares exactly the four constants `EncryptionInitial`,
`EncryptionHandshake`, `Encryption1RTT` and `Encryption0RTT` of that type, bound
to the four levels of package `protocol`; every encryption level is one of them
and they are pairwise distinct. -/
theorem encryptionLevel_four_distinct_constants :
    ("EncryptionLevel", "protocol.EncryptionLevel") ∈ Decl.typeAliases ∧
    Decl.encryptionLevelConsts.map ConstDecl.name =
      ["EncryptionInitial", "EncryptionHandshake", "Encryption1RTT", "Encryption0RTT"] ∧
    Decl.encryptionLevelConsts.map ConstDecl.value =
      ["protocol.EncryptionInitial", "protocol.EncryptionHandshake",
       "protocol.Encryption1RTT", "protocol.Encryption0RTT"] ∧
    (∀ d ∈ Decl.encryptionLevelConsts, d.type = "EncryptionLevel") ∧
    (∀ l : EncryptionLevel,
      l = EncryptionInitial ∨ l = EncryptionHandshake ∨ l = Encryption0RTT ∨
        l = Encryption1RTT) ∧
    encryptionLevels.Nodup ∧
    encryptionLevels.length = 4 ∧
    EncryptionInitial ≠ EncryptionHandshake ∧ EncryptionInitial ≠ Encryption0RTT ∧
    EncryptionInitial ≠ Encryption1RTT ∧ EncryptionHandshake ≠ Encryption0RTT ∧
    EncryptionHandshake ≠ Encryption1RTT ∧ Encryption0RTT ≠ Encryption1RTT := by
  refine ⟨by decide, by decide, by decide, by decide, ?_, by decide, by decide, by decide,
    by decide, by decide, by decide, by decide, by decide⟩
  intro l
  cases l <;> simp [EncryptionInitial, EncryptionHandshake, Encryption0RTT, Encryption1RTT]

/-- C10: the three timer methods do not carry the same key.  `SetLossTimer` has the
parameters (TimerType, EncryptionLevel, time.Time), `LossTimerExpired` has
(TimerType, EncryptionLevel) and `LossTimerCanceled` has none: a canceled call
has no argument and yields no (TimerType, EncryptionLevel) pair, and any two
canceled calls are equal. -/
theorem lossTimerCanceled_carries_no_key :
    (Decl.ConnectionTracer.method? "SetLossTimer").map Method.paramTypes =
      some [.named "TimerType", .named "EncryptionLevel", .named "time.Time"] ∧
    (Decl.ConnectionTracer.method? "LossTimerExpired").map Method.paramTypes =
      some [.named "TimerType", .named "EncryptionLevel"] ∧
    (Decl.ConnectionTracer.method? "LossTimerCanceled").map Method.paramTypes = some [] ∧
    (∀ (I : Imports) (t : I.TimerType) (l : EncryptionLevel) (d : I.Time),
      (Call.SetLossTimer t l d).timerKey = some (t, l) ∧
      (Call.LossTimerExpired t l : Call I).timerKey = some (t, l)) ∧
    (∀ (I : Imports) (c c' : Call I),
      c.kind = some .timerCanceled → c'.kind = some .timerCanceled →
        c = c' ∧ c.timerKey = none ∧ c.arity = 0) := by
  refine ⟨by decide, by decide, by decide, ?_, ?_⟩
  · intro I t l d
    exact ⟨rfl, rfl⟩
  · intro I c c' h h'
    cases c <;> cases c' <;> simp [Call.kind] at h h'
    exact ⟨rfl, rfl, rfl⟩

end Logging
